import Mathlib

/-!
Verification of the cheribuild project/lifecycle excerpts.

Shallow embedding of the Python sources under pycheribuild/projects/:
build_qemu.py, cross/crosscompileproject.py, cross/fett.py.  Pure string
and list computations model the corresponding Python code; stateful hooks
are modelled as explicit state-passing functions, fallible code (Python
assert / fatalError) returns Except, and external effects (warnings,
file writes, invoking the overridden super implementation) are recorded
as explicit event values.
-/

/-! ## Generic string / association-list helpers (model Python primitives) -/

/-- Model of Python `" ".join(xs)`. -/
def joinSpace : List String → String
  | [] => ""
  | [x] => x
  | x :: y :: xs => x ++ " " ++ joinSpace (y :: xs)

/-- Does the second list start with the first one?  (Model of a substring
match attempt at the current position.) -/
def leadsWith : List Char → List Char → Bool
  | [], _ => true
  | _ :: _, [] => false
  | p :: ps, c :: cs => p = c && leadsWith ps cs

/-- Does `pat` occur contiguously inside the list?  (Model of Python
`pat in s` on strings.) -/
def occursIn (pat : List Char) : List Char → Bool
  | [] => pat.isEmpty
  | c :: cs => leadsWith pat (c :: cs) || occursIn pat cs

/-- Model of Python `pat in s` for strings. -/
def strContains (s pat : String) : Bool := occursIn pat.data s.data

/-- Fuel-indexed worker for `strReplace`; the fuel is the length of the
subject so the recursion is structural and kernel-evaluable. -/
def replaceChars (pat rep : List Char) : Nat → List Char → List Char
  | _, [] => []
  | 0, l => l
  | Nat.succ fuel, c :: cs =>
    if leadsWith pat (c :: cs) then
      rep ++ replaceChars pat rep fuel (List.drop (pat.length - 1) cs)
    else
      c :: replaceChars pat rep fuel cs

/-- Model of Python `s.replace(pat, rep)` (all occurrences, left to right,
non-overlapping).  Only used with non-empty patterns, as in the source. -/
def strReplace (s pat rep : String) : String :=
  String.mk (replaceChars pat.data rep.data s.data.length s.data)

/-- Model of Python `s.lower()` for the ASCII names used by the source. -/
def lowerStr (s : String) : String := String.mk (s.data.map Char.toLower)

/-- Model of Python dict assignment `d[k] = v`: replace the value at the
first occurrence of the key, keeping its position, else append. -/
def assocSet {β : Type} : List (String × β) → String → β → List (String × β)
  | [], k, v => [(k, v)]
  | (k0, v0) :: rest, k, v =>
    if k0 = k then (k, v) :: rest else (k0, v0) :: assocSet rest k v

/-- Model of Python dict lookup `d.get(k)` / `k in d`. -/
def assocLookup {β : Type} : List (String × β) → String → Option β
  | [], _ => none
  | (k0, v0) :: rest, k => if k0 = k then some v0 else assocLookup rest k

/-- Truthiness of an `os.getenv` result in Python: `None` and the empty
string are falsy, any other string is truthy. -/
def truthy : Option String → Bool
  | none => false
  | some s => s ≠ ""

/-! ## crosscompileproject.py: data model

`CrossCompileTarget` (from config.chericonfig, used throughout this file)
has exactly the three values NATIVE, CHERI and MIPS that the excerpt
branches on; `CrossInstallDir` is declared in crosscompileproject.py. -/

inductive CrossCompileTarget where
  | native
  | cheri
  | mips
deriving DecidableEq

/-- `class CrossInstallDir(Enum)` with members NONE, CHERIBSD_ROOTFS, SDK. -/
inductive CrossInstallDir where
  | noneDir
  | cheribsdRootfs
  | sdk
deriving DecidableEq

/-- The parts of the global CheriConfig that `_installDir` reads.
`rootfsDir` stands for `BuildCHERIBSD.rootfsDir(config)`. -/
structure InstallDirConfig where
  sdkDir : String
  sdkSysrootDir : String
  cheriBitsStr : String
  rootfsDir : String

/-- The parts of the project instance that `_installDir` reads. -/
structure InstallDirProject where
  crossCompileTarget : CrossCompileTarget
  crossInstallDir : CrossInstallDir
  projectName : String

/-- Result of `_installDir`: either a path or a `fatalError` report. -/
inductive InstallDirResult where
  | path (p : String)
  | fatal (msg : String)
deriving DecidableEq

/-- Embedding of `_installDir(config, project)`
(crosscompileproject.py lines 28-40).  Paths are modelled as strings
joined with `/`.  The `assert project.crossCompileTarget == MIPS` in the
source is the `else` branch here: with NATIVE excluded by the first test,
only CHERI and MIPS remain. -/
def installDirFn (config : InstallDirConfig) (project : InstallDirProject) :
    InstallDirResult :=
  if project.crossCompileTarget = CrossCompileTarget.native then
    InstallDirResult.path config.sdkDir
  else if project.crossInstallDir = CrossInstallDir.cheribsdRootfs then
    let targetName :=
      if project.crossCompileTarget = CrossCompileTarget.cheri then
        "cheri" ++ config.cheriBitsStr
      else
        "mips"
    InstallDirResult.path
      (config.rootfsDir ++ "/opt/" ++ targetName ++ "/" ++ lowerStr project.projectName)
  else if project.crossInstallDir = CrossInstallDir.sdk then
    InstallDirResult.path config.sdkSysrootDir
  else
    InstallDirResult.fatal ("Unknown install dir for " ++ project.projectName)

/-- Embedding of `CrossCompileMixin.dependencies`
(crosscompileproject.py line 55):
`lambda cls: ["freestanding-sdk"] if cls.baremetal else ["cheribsd-sdk"]`. -/
def crossCompileMixinDependencies (baremetal : Bool) : List String :=
  if baremetal then ["freestanding-sdk"] else ["cheribsd-sdk"]

/-! ## build_qemu.py: option mutation in lifecycle hooks (claim C1) -/

/-- The instance state read by the morello branch of `BuildQEMU.setup`
(build_qemu.py lines 290-298): the resolved `qemu_targets` option value,
whether the underlying config option still holds its default value
(`inspect.getattr_static(self, "qemu_targets").is_default_value`), and
whether `source_dir/"default-configs/targets/morello-softmmu.mak"` exists. -/
structure QemuTargetsState where
  qemu_targets : String
  targets_is_default_value : Bool
  morello_mak_exists : Bool

/-- Embedding of the effect of `BuildQEMU.setup` on the resolved
`qemu_targets` option value (build_qemu.py lines 290-297). -/
def buildQEMUSetupQemuTargets (s : QemuTargetsState) : String :=
  if strContains s.qemu_targets "morello-softmmu" = false ∧
      s.morello_mak_exists = true then
    if s.targets_is_default_value = true then
      s.qemu_targets ++ ",morello-softmmu"
    else
      s.qemu_targets
  else
    s.qemu_targets

/-- Embedding of the effect of `BuildQEMUBase.__init__` on the resolved
`use_lto` option value (build_qemu.py lines 122-128): under
`if self.use_asan:` the hook executes `self.use_lto = False`. -/
def buildQEMUBaseInitUseLto (use_asan use_lto : Bool) : Bool :=
  if use_asan then false else use_lto

/-- Claim C1 as stated, specialised to the two hooks its sources name:
no lifecycle hook modifies a resolved option value, in particular
`BuildQEMU.setup` never changes `qemu_targets` and
`BuildQEMUBase.__init__` never changes `use_lto`.  (The spec claim
universally quantifies over all hooks and options; this Prop is a
consequence of it, so refuting this Prop refutes the claim.) -/
def c1Claim : Prop :=
  (∀ s : QemuTargetsState, buildQEMUSetupQemuTargets s = s.qemu_targets) ∧
  (∀ a l : Bool, buildQEMUBaseInitUseLto a l = l)

/-! ## build_qemu.py: `BuildQEMUBase.update` (claim C3) -/

/-- The working-copy state that `BuildQEMUBase.update` interacts with:
whether `source_dir/"po"` is a directory, whether
`source_dir/"pixman/pixman"` exists, and the set of tracked
subdirectories currently carrying local modifications. -/
structure QemuWorkingCopy where
  po_is_dir : Bool
  pixman_pixman_exists : Bool
  modifiedSubdirs : List String
deriving DecidableEq

/-- The warning text issued for the stale pixman submodule
(build_qemu.py line 225). -/
def pixmanWarning : String :=
  "QEMU might build the broken pixman submodule, run `git submodule deinit -f pixman` to clean"

/-- The local part of `BuildQEMUBase.update` (build_qemu.py lines
218-226), before the call to `super().update()`: running
`git checkout HEAD po/` discards every local modification under `po`,
and the pixman check emits a warning.  Returns the working copy passed
on to super together with the warnings issued. -/
def qemuUpdateLocal (skip_update : Bool) (t : QemuWorkingCopy) :
    QemuWorkingCopy × List String :=
  let t1 :=
    if t.po_is_dir = true ∧ skip_update = false then
      { t with modifiedSubdirs := t.modifiedSubdirs.filter (fun d => d ≠ "po") }
    else
      t
  let warnings := if t.pixman_pixman_exists = true then [pixmanWarning] else []
  (t1, warnings)

/-- Embedding of `BuildQEMUBase.update`: the local po/pixman handling
followed by `super().update()`, the latter abstracted as a function on
the working copy (its code is outside this excerpt). -/
def buildQEMUBaseUpdate (superUpdate : QemuWorkingCopy → QemuWorkingCopy)
    (skip_update : Bool) (t : QemuWorkingCopy) :
    QemuWorkingCopy × List String :=
  let r := qemuUpdateLocal skip_update t
  (superUpdate r.1, r.2)

/-- Claim C3 as stated: for every tracked subdirectory with local
modifications, update warns about it and the modifications survive the
update.  Quantified over any super-update behaviour that itself
preserves local modifications (the spec's contract for the generic
checkout/update step). -/
def c3Claim : Prop :=
  ∀ superUpdate : QemuWorkingCopy → QemuWorkingCopy,
    (∀ t, (superUpdate t).modifiedSubdirs = t.modifiedSubdirs) →
    ∀ (skip : Bool) (t : QemuWorkingCopy) (d : String),
      d ∈ t.modifiedSubdirs →
        d ∈ (buildQEMUBaseUpdate superUpdate skip t).1.modifiedSubdirs ∧
        ∃ w, w ∈ (buildQEMUBaseUpdate superUpdate skip t).2 ∧ strContains w d = true

/-! ## Cooperative `setup_config_options` / `setupConfigOptions` (claim C2)

Each override is modelled as a function from the option list registered
by its super chain (everything above this excerpt is the abstract
parameter `base`) to the option list registered after it runs; each
level appends the names of the options it declares after invoking super,
exactly as the Python classmethods do. -/

/-- Option names declared by `BuildQEMUBase.setup_config_options`
(build_qemu.py lines 66-81). -/
def qemuBaseDeclaredOptions : List String :=
  ["use-smbd", "gui", "build-profiler", "targets", "full-lto"]

/-- Embedding of `BuildQEMUBase.setup_config_options`: calls
`super().setup_config_options(**kwargs)` first, then registers its own
options. -/
def buildQEMUBaseSetupConfigOptions (base : List String) : List String :=
  base ++ qemuBaseDeclaredOptions

/-- Option names declared by `BuildQEMU.setup_config_options`
(build_qemu.py lines 257-264). -/
def buildQEMUDeclaredOptions : List String := ["unaligned", "statistics"]

/-- Embedding of `BuildQEMU.setup_config_options`: calls
`super().setup_config_options()` (which reaches
`BuildQEMUBase.setup_config_options` through `BuildSystemQEMU`, which
does not override it), then registers its own options. -/
def buildQEMUSetupConfigOptions (base : List String) : List String :=
  buildQEMUBaseSetupConfigOptions base ++ buildQEMUDeclaredOptions

/-- Option names unconditionally declared by
`CrossCompileMixin.setupConfigOptions` (crosscompileproject.py lines
215-230). -/
def crossMixinDeclaredOptions : List String :=
  ["use-mxgot", "linker", "debug-info", "optimization-flags", "new-cap-relocs"]

/-- Embedding of `CrossCompileMixin.setupConfigOptions`: calls
`super().setupConfigOptions(**kwargs)` first, registers its options, and
additionally registers "target" when
`inspect.getattr_static(cls, "crossCompileTarget") is None`. -/
def crossCompileMixinSetupConfigOptions (base : List String)
    (crossCompileTargetIsNone : Bool) : List String :=
  base ++ crossMixinDeclaredOptions ++
    (if crossCompileTargetIsNone then ["target"] else [])

/-- Embedding of `CrossCompileCMakeProject.setupConfigOptions`
(crosscompileproject.py lines 265-267): calls super and declares nothing
of its own. -/
def crossCompileCMakeSetupConfigOptions (base : List String)
    (crossCompileTargetIsNone : Bool) : List String :=
  crossCompileMixinSetupConfigOptions base crossCompileTargetIsNone

/-! ## build_qemu.py: smbd handling in `BuildQEMUBase.setup` (claim C7) -/

/-- Externally observable effects of the smbd section of
`BuildQEMUBase.setup`. -/
inductive QemuSetupEvent where
  | info (msg : String)
  | warningMsg (msg : String)
  | addRequiredSystemTool (path : String)
  | configureArg (arg : String)
  | fatal (msg : String) (fixitHint : String)
deriving DecidableEq

/-- Environment read by the smbd section of `BuildQEMUBase.setup`
(build_qemu.py lines 156-186): the resolved `use_smbd` option, the host
platform, the homebrew samba lookup result (`None` when not found), the
config's `other_tools_dir`, the target name (for the fixit hint), and
the filesystem `exists` oracle. -/
structure QemuSmbdEnv where
  use_smbd : Bool
  target_is_freebsd : Bool
  target_is_macos : Bool
  homebrew_samba : Option String
  other_tools_dir : String
  target : String
  pathExists : String → Bool

/-- The smbd path resolution of build_qemu.py lines 157-170, together
with the `self.info` event emitted in the macOS branch; the last step
prefers the self-compiled samba under `other_tools_dir` when present. -/
def qemuSmbdPath (e : QemuSmbdEnv) : String × List QemuSetupEvent :=
  let resolved :=
    if e.target_is_freebsd then ("/usr/local/sbin/smbd", ([] : List QemuSetupEvent))
    else if e.target_is_macos then
      (match e.homebrew_samba with
        | some pre => pre ++ "/sbin/samba-dot-org-smbd"
        | none => e.other_tools_dir ++ "/sbin/smbd",
       [QemuSetupEvent.info "Guessed samba path"])
    else ("/usr/sbin/smbd", [])
  if e.pathExists (e.other_tools_dir ++ "/sbin/smbd") then
    (e.other_tools_dir ++ "/sbin/smbd", resolved.2)
  else
    resolved

/-- The fatal message of build_qemu.py line 183. -/
def smbdFatalMsg : String :=
  "Could not find smbd -> QEMU SMB shares networking will not work"

/-- The `fixit_hint` of build_qemu.py lines 184-186, as a function of
the target name. -/
def smbdFatalHint (target : String) : String :=
  "Either install samba using the system package manager or with cheribuild. " ++
  "If you really don\x27t need QEMU host shares you can disable the samba dependency " ++
  "by setting --" ++ target ++ "/no-use-smbd"

/-- The macOS warning of build_qemu.py lines 180-182. -/
def macosSmbdWarning : String :=
  "QEMU user-mode samba shares require the samba.org smbd. You will need to install it " ++
  "using homebrew (`brew install samba`) or build from source (`cheribuild.py samba`) " ++
  "since the /usr/sbin/smbd shipped by macOS is incompatible with QEMU"

/-- Embedding of the smbd section of `BuildQEMUBase.setup`
(build_qemu.py lines 156-186) as its emitted event sequence. -/
def qemuSetupSmbd (e : QemuSmbdEnv) : List QemuSetupEvent :=
  if e.use_smbd then
    let p := (qemuSmbdPath e).1
    (qemuSmbdPath e).2 ++
      [QemuSetupEvent.addRequiredSystemTool p,
       QemuSetupEvent.configureArg ("--smbd=" ++ p)] ++
      (if e.pathExists p then
        []
      else
        (if e.target_is_macos then [QemuSetupEvent.warningMsg macosSmbdWarning] else []) ++
          [QemuSetupEvent.fatal smbdFatalMsg (smbdFatalHint e.target)])
  else
    []

/-! ## fett.py: `BuildFettConfig.install` (claims C5 and C10) -/

/-- An mtree manifest entry.

Modelled from the spec: `MtreeFile` lives in pycheribuild/mtree.py, which
is not part of this excerpt; the spec describes the shared rootfs install
directory as accumulating contributions through additive writes and
symlink creation.  An entry is a regular file (with its source and an
optional mode), a symlink (recorded by `add_file(..., symlink=True)`), or
a directory (with optional owner/group names). -/
inductive MtreeEntry where
  | file (contentsFrom : String) (mode : Option String)
  | link (linkTarget : String)
  | dir (uname gname : Option String)
deriving DecidableEq

/-- An mtree manifest, keyed by rootfs-relative destination path.

Modelled from the spec: `MtreeFile.add_file` / `add_dir` insert an entry
at its destination path, replacing an entry already recorded for exactly
that path and leaving every other entry in place; `load` reads the
manifest and `write` writes all recorded entries back. -/
def MtreeManifest : Type := List (String × MtreeEntry)

/-- Insert-or-replace one manifest entry (Modelled from the spec, see
`MtreeManifest`). -/
def mtreeAdd (m : MtreeManifest) (path : String) (e : MtreeEntry) : MtreeManifest :=
  assocSet m path e

/-- Environment and filesystem state that `BuildFettConfig.install`
reads: the `_TEST_SKIP_METALOG` environment variable (as returned by
`os.getenv`), whether the METALOG file exists, its parsed contents, the
source directory, the destination directory, and the two install
prefixes `BuildFettNginx...._installPrefix.relative_to('/')` and
`BuildFettOpenSSH...._installPrefix.relative_to('/')`. -/
structure FettEnv where
  test_skip_metalog : Option String
  metalog_exists : Bool
  metalog : List (String × MtreeEntry)
  sourceDir : String
  destdir : String
  nginxRel : String
  sshRel : String

/-- The html files installed by the loop in fett.py lines 92-101. -/
def fettHtmlFiles : List String :=
  ["index.html", "private/secret.html", "stanford.png", "static.html", "test.txt"]

/-- The sshd host key files symlinked by the loop in fett.py lines
105-107. -/
def fettKeyfiles : List String :=
  ["ssh_host_dsa_key", "ssh_host_ecdsa_key", "ssh_host_ed25519_key", "ssh_host_rsa_key"]

/-- The ordered `self.mtree.add_file` / `add_dir` calls of
`BuildFettConfig.install` (fett.py lines 78-109), as (destination path,
entry) pairs.  `Path` joins are written with single `/` separators. -/
def fettInstallAdds (e : FettEnv) : List (String × MtreeEntry) :=
  [(e.nginxRel ++ "/conf/nginx.conf",
    MtreeEntry.file (e.sourceDir ++ "/build/webserver/common/conf/nginx.conf") none),
   (e.nginxRel ++ "/logs", MtreeEntry.dir none none),
   (e.nginxRel ++ "/etc/ssl/private/private-selfsigned.key",
    MtreeEntry.file (e.sourceDir ++ "/build/webserver/common/keys/private-selfsigned.key")
      (some "0600")),
   (e.nginxRel ++ "/etc/ssl/certs/selfsigned.crt",
    MtreeEntry.file (e.sourceDir ++ "/build/webserver/common/certs/selfsigned.crt") none),
   ("etc/rc.d/fett_nginx",
    MtreeEntry.file (e.sourceDir ++ "/build/webserver/FreeBSD/rcfile") (some "0555")),
   (e.nginxRel ++ "/post", MtreeEntry.dir (some "www") (some "www"))] ++
  fettHtmlFiles.map (fun f =>
    (e.nginxRel ++ "/html/" ++ f,
     MtreeEntry.file (e.sourceDir ++ "/build/webserver/common/html/" ++ f) none)) ++
  fettKeyfiles.map (fun kf =>
    (e.sshRel ++ "/etc/" ++ kf, MtreeEntry.link ("/etc/ssh/" ++ kf))) ++
  [("etc/rc.d/fett_sshd",
    MtreeEntry.file (e.sourceDir ++ "/build/ssh/FreeBSD/fett_sshd") (some "0555"))]

/-- The manifest written back by the main branch of
`BuildFettConfig.install`: the loaded METALOG with every add applied in
order. -/
def fettInstalledManifest (e : FettEnv) : List (String × MtreeEntry) :=
  (fettInstallAdds e).foldl (fun m pe => mtreeAdd m pe.1 pe.2) e.metalog

/-- Outcome of one run of `BuildFettConfig.install`. -/
inductive FettOutcome where
  | skipped
  | fatalMissingMetalog (msg : String)
  | installed
deriving DecidableEq

/-- Embedding of `BuildFettConfig.install` (fett.py lines 68-117):
returns the outcome together with the METALOG manifest on disk after the
call.  `os.getenv("_TEST_SKIP_METALOG")` guards the whole body (Python
truthiness), the `os.path.exists` check turns a missing METALOG into a
`fatalError` followed by `return` (the source message lacks a space
before "does"), and otherwise the load / add / write sequence runs. -/
def fettInstall (e : FettEnv) : FettOutcome × List (String × MtreeEntry) :=
  if truthy e.test_skip_metalog then
    (FettOutcome.skipped, e.metalog)
  else if e.metalog_exists = false then
    (FettOutcome.fatalMissingMetalog
      ("METALOG " ++ e.destdir ++ "/METALOG" ++ "does not exist"), e.metalog)
  else
    (FettOutcome.installed, fettInstalledManifest e)

/-- Claim C10 as stated: `install` returns immediately whenever the
environment variable is set (i.e. not absent), reports a fatal error
leaving the manifest unchanged when METALOG is missing, and runs the
load/add/write sequence exactly when METALOG exists and the variable is
unset. -/
def c10Claim : Prop :=
  ∀ e : FettEnv,
    (e.test_skip_metalog ≠ none → fettInstall e = (FettOutcome.skipped, e.metalog)) ∧
    (e.test_skip_metalog = none → e.metalog_exists = false →
      (fettInstall e).1 =
        FettOutcome.fatalMissingMetalog
          ("METALOG " ++ e.destdir ++ "/METALOG" ++ "does not exist") ∧
      (fettInstall e).2 = e.metalog) ∧
    ((fettInstall e).1 = FettOutcome.installed ↔
      (e.metalog_exists = true ∧ e.test_skip_metalog = none))

/-! ## crosscompileproject.py: CrossCompileMixin instance state

One structure carries every instance attribute the CMake and Autotools
configure paths read.  Paths are strings; `Path` joins use `/`. -/

structure CrossMixinState where
  crossCompileTarget : CrossCompileTarget
  baremetal : Bool
  COMMON_FLAGS : List String
  CFLAGS : List String
  CXXFLAGS : List String
  ASMFLAGS : List String
  LDFLAGS : List String
  optimizationFlags : List String
  warningFlags : List String
  targetTriple : String
  sdkSysroot : String
  sdkBinDir : String
  compiler_dir : String
  linker : String
  installPrefixStr : String
  newCapRelocs : Bool
  withLibstatcounters : Bool
  use_sdk_clang_for_native_xbuild : Bool
  is_mac : Bool
  clangPath : String
  clangPlusPlusPath : String
  forceDefaultCC : Bool
  ld_lld_exists : Bool
  configureEnvironment : List (String × String)
  configureArgs : List String
  buildDir : String
  cmakeTemplate : String
  cmake_version_lt_3_9 : Bool
  cheri_custom_lib_dir_exists : Bool
  generator_is_ninja : Bool

/-- `CrossCompileMixin.compiling_for_host` (crosscompileproject.py line
238). -/
def compilingForHost (s : CrossMixinState) : Bool :=
  s.crossCompileTarget = CrossCompileTarget.native

/-- `CrossCompileMixin.compiling_for_cheri` (line 235). -/
def compilingForCheri (s : CrossMixinState) : Bool :=
  s.crossCompileTarget = CrossCompileTarget.cheri

/-- `CrossCompileMixin.compiling_for_mips` (line 232). -/
def compilingForMips (s : CrossMixinState) : Bool :=
  s.crossCompileTarget = CrossCompileTarget.mips

/-- `CrossCompileMixin.targetTripleWithVersion` (lines 144-151): append
"12" to the triple except for host or baremetal builds. -/
def targetTripleWithVersion (s : CrossMixinState) : String :=
  if compilingForHost s || s.baremetal then s.targetTriple
  else s.targetTriple ++ "12"

/-- `CrossCompileMixin.CC` (lines 198-205). -/
def mixinCC (s : CrossMixinState) : String :=
  if compilingForHost s && (!s.use_sdk_clang_for_native_xbuild || s.is_mac) then
    if !s.forceDefaultCC then s.clangPath else "cc"
  else
    let usePrefixedCC := !compilingForHost s && !s.baremetal
    let compilerName := if usePrefixedCC then s.targetTriple ++ "-clang" else "clang"
    s.compiler_dir ++ "/" ++ compilerName

/-- `CrossCompileMixin.CXX` (lines 207-213). -/
def mixinCXX (s : CrossMixinState) : String :=
  if compilingForHost s && !s.use_sdk_clang_for_native_xbuild then
    if !s.forceDefaultCC then s.clangPlusPlusPath else "c++"
  else
    let usePrefixedCXX := !compilingForHost s && !s.baremetal
    let compilerName := if usePrefixedCXX then s.targetTriple ++ "-clang++" else "clang++"
    s.compiler_dir ++ "/" ++ compilerName

/-- `CrossCompileMixin.default_ldflags` (lines 167-196).  The source's
final `else: fatalError("Logic error!")` is unreachable with the three
enum values, so the embedding is total over them. -/
def defaultLdflags (s : CrossMixinState) : List String :=
  match s.crossCompileTarget with
  | CrossCompileTarget.native => []
  | CrossCompileTarget.cheri =>
    defaultLdflagsTail s "purecap"
      (if !s.baremetal then "elf64btsmip_cheri_fbsd" else "elf64btsmip_cheri")
  | CrossCompileTarget.mips =>
    defaultLdflagsTail s "n64"
      (if !s.baremetal then "elf64btsmip_fbsd" else "elf64btsmip")
where
  defaultLdflagsTail (s : CrossMixinState) (abi emulation : String) : List String :=
    ["-mabi=" ++ abi,
     "-Wl,-m" ++ emulation,
     "-fuse-ld=" ++ s.linker,
     "-Wl,-z,notext",
     "-B" ++ s.sdkBinDir] ++
    (if !s.baremetal then ["--sysroot=" ++ s.sdkSysroot] else []) ++
    (if compilingForCheri s && s.newCapRelocs then
      ["-no-capsizefix", "-Wl,-process-cap-relocs", "-Wl,-verbose"] else []) ++
    (if s.withLibstatcounters then
      ["-Wl,--whole-archive", "-lstatcounters", "-Wl,--no-whole-archive"] else [])

/-- `CrossCompileAutotoolsProject.default_compiler_flags` (lines
376-385). -/
def defaultCompilerFlags (s : CrossMixinState) : List String :=
  if compilingForHost s then s.COMMON_FLAGS
  else
    (["-target", targetTripleWithVersion s] ++ s.COMMON_FLAGS ++ s.optimizationFlags ++
      (if !s.baremetal then ["--sysroot=" ++ s.sdkSysroot] else [])) ++
    (["-B" ++ s.sdkBinDir] ++ s.warningFlags)

/-- `CrossCompileMixin.pkgconfig_dirs` (lines 241-247); Python returns a
string or `None`. -/
def pkgconfigDirs (s : CrossMixinState) : Option String :=
  if compilingForMips s then
    some (s.sdkSysroot ++ "/usr/lib/pkgconfig" ++ ":" ++
      s.sdkSysroot ++ "/usr/local/lib/pkgconfig")
  else if compilingForCheri s then
    some (s.sdkSysroot ++ "/usr/libcheri/pkgconfig" ++ ":" ++
      s.sdkSysroot ++ "/usr/local/libcheri/pkgconfig")
  else
    none

/-! ## crosscompileproject.py: `CrossCompileAutotoolsProject.configure`
(claim C9) -/

/-- The `fullpath` string assembled by `set_prog_with_args` (lines
398-404): the path, then a space and the space-joined argument list when
the list is non-empty (Python `if args:`). -/
def progWithArgsStr (path : String) (args : List String) : String :=
  if args = [] then path else path ++ " " ++ joinSpace args

/-- One `prog=value` configure-script argument. -/
def configureArgEntry (prog value : String) : String := prog ++ "=" ++ value

/-- The two instance attributes `CrossCompileAutotoolsProject.configure`
mutates: `self.configureEnvironment` and `self.configureArgs`.  The
configure method is modelled as a transformer of this pair (all other
instance attributes are only read). -/
structure ConfigureState where
  configureEnvironment : List (String × String)
  configureArgs : List String
deriving DecidableEq

/-- Embedding of `CrossCompileAutotoolsProject.set_prog_with_args`:
writes the environment entry and, when
`_configure_supports_variables_on_cmdline`, appends `prog=fullpath` to
the configure arguments. -/
def setProgWithArgs (cmdline : Bool) (ea : ConfigureState)
    (prog path : String) (args : List String) : ConfigureState :=
  let fullpath := progWithArgsStr path args
  { configureEnvironment := assocSet ea.configureEnvironment prog fullpath,
    configureArgs := ea.configureArgs ++
      (if cmdline then [configureArgEntry prog fullpath] else []) }

/-- Embedding of `CrossCompileAutotoolsProject.add_configure_env_arg`
(lines 387-392): a falsy (empty) value is dropped entirely. -/
def addConfigureEnvArg (cmdline : Bool) (ea : ConfigureState)
    (arg value : String) : ConfigureState :=
  if value = "" then ea
  else
    { configureEnvironment := assocSet ea.configureEnvironment arg value,
      configureArgs := ea.configureArgs ++
        (if cmdline then [configureArgEntry arg value] else []) }

/-- The duplicate-variable assertion of line 416-417: `assert key not in
self.configureEnvironment` for CFLAGS, CXXFLAGS, CPPFLAGS, LDFLAGS. -/
def autotoolsFlagKeysAbsent (env : List (String × String)) : Bool :=
  (assocLookup env "CFLAGS").isNone && (assocLookup env "CXXFLAGS").isNone &&
  (assocLookup env "CPPFLAGS").isNone && (assocLookup env "LDFLAGS").isNone

/-- The `if not self.compiling_for_host():` tail of
`CrossCompileAutotoolsProject.configure` (lines 427-430): set `CPP` (with
the CPPFLAGS, i.e. the default compiler flags) and, when the linker is
lld and `ld.lld` exists next to the compiler, set `LD`. -/
def autotoolsCPPAndLD (cmdline : Bool) (st : CrossMixinState)
    (ea : ConfigureState) : ConfigureState :=
  if !compilingForHost st then
    let ea1 := setProgWithArgs cmdline ea "CPP"
      (st.compiler_dir ++ "/" ++ st.targetTriple ++ "-clang-cpp")
      (defaultCompilerFlags st)
    if strContains st.linker "lld" && st.ld_lld_exists then
      addConfigureEnvArg cmdline ea1 "LD" (st.compiler_dir ++ "/ld.lld")
    else ea1
  else ea

/-- Embedding of `CrossCompileAutotoolsProject.configure` (lines
406-438), parameterised by the class attributes
`_configure_supports_libdir` and
`_configure_supports_variables_on_cmdline` (both `True` at this class).
Returns the environment/arguments handed to
`super().configure(**kwargs)` — the final step of the method — paired
with `true` recording that super's configure was invoked; a failed
assertion is returned as `Except.error`. -/
def crossAutotoolsConfigure (supportsLibdir supportsCmdline : Bool)
    (st : CrossMixinState) : Except String (ConfigureState × Bool) :=
  let ea0 : ConfigureState :=
    { configureEnvironment := st.configureEnvironment,
      configureArgs :=
        if compilingForCheri st && supportsLibdir then
          st.configureArgs ++ ["--libdir=" ++ st.installPrefixStr ++ "/libcheri"]
        else st.configureArgs }
  if !st.baremetal then
    if !autotoolsFlagKeysAbsent ea0.configureEnvironment then
      Except.error "assertion failed: key not in self.configureEnvironment"
    else
      let ea1 := setProgWithArgs supportsCmdline ea0 "CC" (mixinCC st)
        (defaultCompilerFlags st ++ st.CFLAGS)
      let ea2 := setProgWithArgs supportsCmdline ea1 "CXX" (mixinCXX st)
        (defaultCompilerFlags st ++ st.CXXFLAGS)
      let ea3 := addConfigureEnvArg supportsCmdline ea2 "LDFLAGS"
        (joinSpace (st.LDFLAGS ++ defaultLdflags st))
      let ea4 := autotoolsCPPAndLD supportsCmdline st ea3
      Except.ok
        ({ configureEnvironment :=
            ea4.configureEnvironment.filter (fun kv => kv.2 ≠ ""),
           configureArgs := ea4.configureArgs }, true)
  else
    Except.ok
      ({ configureEnvironment :=
          ea0.configureEnvironment.filter (fun kv => kv.2 ≠ ""),
         configureArgs := ea0.configureArgs }, true)

/-- The CC value claim C9 describes: compiler path plus the composed
default compiler flags and the C flags. -/
def autotoolsCCValue (st : CrossMixinState) : String :=
  progWithArgsStr (mixinCC st) (defaultCompilerFlags st ++ st.CFLAGS)

/-- The CXX value claim C9 describes. -/
def autotoolsCXXValue (st : CrossMixinState) : String :=
  progWithArgsStr (mixinCXX st) (defaultCompilerFlags st ++ st.CXXFLAGS)

/-- The LDFLAGS value claim C9 describes: LDFLAGS plus the default
linker flags, space-joined. -/
def autotoolsLDFLAGSValue (st : CrossMixinState) : String :=
  joinSpace (st.LDFLAGS ++ defaultLdflags st)

/-! ## crosscompileproject.py: `CrossCompileCMakeProject` (claim C8) -/

/-- A toolchain-file placeholder value: Python passes strings/paths or
lists of flags; `strval` is `" ".join(value) if isinstance(value, list)
else str(value)` (line 287). -/
inductive TValue where
  | s (v : String)
  | l (v : List String)
deriving DecidableEq

/-- Line 287: `strval`. -/
def strvalOf : TValue → String
  | TValue.s v => v
  | TValue.l v => joinSpace v

/-- The toolchain file path chosen in
`CrossCompileCMakeProject.__init__` (lines 272-277). -/
def toolchainFilePath (s : CrossMixinState) : String :=
  s.buildDir ++ "/" ++
    (if s.crossCompileTarget = CrossCompileTarget.native then "NativeToolchain.cmake"
     else "CheriBSDToolchain.cmake")

/-- The CMake options registered by `CrossCompileCMakeProject.__init__`
(line 278): `CMAKE_TOOLCHAIN_FILE` pointing at the toolchain file. -/
def crossCMakeInitCMakeOptions (s : CrossMixinState) : List (String × String) :=
  [("CMAKE_TOOLCHAIN_FILE", toolchainFilePath s)]

/-- One step of the loop body of
`CrossCompileCMakeProject._prepareToolchainFile` (lines 284-289): a
`None` value is skipped, otherwise the source asserts that the
placeholder `@key@` occurs in the template and substitutes it.  A failed
Python `assert` is `Except.error`. -/
def toolchainSubstStep (acc : Except String String) (kv : String × Option TValue) :
    Except String String :=
  match acc, kv.2 with
  | Except.error e, _ => Except.error e
  | Except.ok t, none => Except.ok t
  | Except.ok t, some v =>
    if strContains t ("@" ++ kv.1 ++ "@") then
      Except.ok (strReplace t ("@" ++ kv.1 ++ "@") (strvalOf v))
    else
      Except.error ("assertion failed: " ++ kv.1)

/-- Embedding of `CrossCompileCMakeProject._prepareToolchainFile` (lines
282-291): fold `toolchainSubstStep` over the keyword arguments, then
assert that no "@" remains in the configured template (line 290).  The
`writeFile` that follows is recorded by `crossCMakeConfigure`. -/
def prepareToolchainFile (tmpl : String)
    (kwargs : List (String × Option TValue)) : Except String String :=
  match kwargs.foldl toolchainSubstStep (Except.ok tmpl) with
  | Except.error e => Except.error e
  | Except.ok t =>
    if strContains t "@" then
      Except.error "assertion failed: \x22@\x22 not in configuredTemplate"
    else
      Except.ok t

/-- The `add_lib_suffix` CMake snippet for CHERI builds (lines 310-321;
literal braces written with hex escapes). -/
def addLibSuffixCheri : String :=
  "\n# cheri libraries are found in /usr/libcheri:\n" ++
  "if(\"$\x7bCMAKE_VERSION\x7d\" VERSION_LESS 3.9)\n" ++
  "  # message(STATUS \x22CMAKE < 3.9 HACK to find libcheri libraries\x22)\n" ++
  "  # need to create a <sysroot>/usr/lib/cheri -> <sysroot>/usr/libcheri symlink \n" ++
  "  set(CMAKE_LIBRARY_ARCHITECTURE \x22cheri\x22)\n" ++
  "  set(CMAKE_SYSTEM_LIBRARY_PATH \x22$\x7bCMAKE_FIND_ROOT_PATH\x7d/usr/libcheri;$\x7bCMAKE_FIND_ROOT_PATH\x7d/usr/local/libcheri\x22)\n" ++
  "else()\n" ++
  "    set(CMAKE_FIND_LIBRARY_CUSTOM_LIB_SUFFIX \x22cheri\x22)\n" ++
  "endif()\n" ++
  "set(LIB_SUFFIX \x22cheri\x22 CACHE INTERNAL \x22\x22)\n"

/-- `add_lib_suffix` of lines 309-327 (None for host builds). -/
def addLibSuffixVal (s : CrossMixinState) : Option TValue :=
  if compilingForCheri s then some (TValue.s addLibSuffixCheri)
  else if compilingForMips s then some (TValue.s "# no lib suffix for mips libraries")
  else none

/-- `processor` of lines 309-328. -/
def processorVal (s : CrossMixinState) : Option TValue :=
  if compilingForCheri s then some (TValue.s "CHERI (MIPS IV compatible)")
  else if compilingForMips s then some (TValue.s "BERI (MIPS IV compatible)")
  else none

/-- `system_name` of lines 330-333. -/
def systemNameVal (s : CrossMixinState) : Option TValue :=
  if compilingForHost s then none
  else some (TValue.s (if s.baremetal then "Generic" else "FreeBSD"))

/-- The `common_flags` local of `CrossCompileCMakeProject.configure`
(lines 294-307).  In the non-host branch the source first appends
`-B<sdkBinDir>` to `self.COMMON_FLAGS` and then extends with the warning
flags and the target triple. -/
def crossCMakeCommonFlags (s : CrossMixinState) : List String :=
  if compilingForHost s then s.COMMON_FLAGS
  else
    (s.COMMON_FLAGS ++ ["-B" ++ s.sdkBinDir]) ++ s.warningFlags ++
      ["-target", targetTripleWithVersion s]

/-- Observable effects of `CrossCompileCMakeProject.configure`. -/
inductive CMakeConfigureEvent where
  | warningMsg (msg : String)
  | createSymlink (target linkPath : String)
  | makedirs (p : String)
  | writeFile (file contents : String)
  | addCMakeOption (key value : String)
  | superConfigure
deriving DecidableEq

/-- The filesystem workaround events of lines 297-306 (missing custom
lib suffix in CMake < 3.9), emitted only for non-host builds. -/
def crossCMakeWorkaroundEvents (s : CrossMixinState) : List CMakeConfigureEvent :=
  if compilingForHost s then []
  else if !s.baremetal && s.cmake_version_lt_3_9 && !s.cheri_custom_lib_dir_exists then
    [CMakeConfigureEvent.warningMsg "Workaround for missing custom lib suffix in CMake < 3.9",
     CMakeConfigureEvent.createSymlink "../libcheri" (s.sdkSysroot ++ "/usr/lib/cheri"),
     CMakeConfigureEvent.makedirs (s.sdkSysroot ++ "/usr/local/lib"),
     CMakeConfigureEvent.makedirs (s.sdkSysroot ++ "/usr/local/libcheri"),
     CMakeConfigureEvent.createSymlink "../libcheri" (s.sdkSysroot ++ "/usr/local/lib/cheri")]
  else []

/-- The keyword arguments of the `_prepareToolchainFile` call (lines
334-350), in call order. -/
def toolchainKwargs (s : CrossMixinState) : List (String × Option TValue) :=
  [("TOOLCHAIN_SDK_BINDIR", some (TValue.s s.sdkBinDir)),
   ("TOOLCHAIN_COMPILER_BINDIR", some (TValue.s s.compiler_dir)),
   ("TOOLCHAIN_TARGET_TRIPLE", some (TValue.s s.targetTriple)),
   ("TOOLCHAIN_COMMON_FLAGS", some (TValue.l (crossCMakeCommonFlags s))),
   ("TOOLCHAIN_C_FLAGS", some (TValue.l s.CFLAGS)),
   ("TOOLCHAIN_LINKER_FLAGS", some (TValue.l (s.LDFLAGS ++ defaultLdflags s))),
   ("TOOLCHAIN_CXX_FLAGS", some (TValue.l s.CXXFLAGS)),
   ("TOOLCHAIN_ASM_FLAGS", some (TValue.l s.ASMFLAGS)),
   ("TOOLCHAIN_C_COMPILER", some (TValue.s (mixinCC s))),
   ("TOOLCHAIN_CXX_COMPILER", some (TValue.s (mixinCXX s))),
   ("TOOLCHAIN_SYSROOT",
    if compilingForHost s then none else some (TValue.s s.sdkSysroot)),
   ("ADD_TOOLCHAIN_LIB_SUFFIX", addLibSuffixVal s),
   ("TOOLCHAIN_SYSTEM_PROCESSOR", processorVal s),
   ("TOOLCHAIN_SYSTEM_NAME", systemNameVal s),
   ("TOOLCHAIN_PKGCONFIG_DIRS", (pkgconfigDirs s).map TValue.s)]

/-- The `add_cmake_options` events after the toolchain file is written
(lines 352-357). -/
def crossCMakePostEvents (s : CrossMixinState) : List CMakeConfigureEvent :=
  (if s.generator_is_ninja then
    [CMakeConfigureEvent.addCMakeOption "CMAKE_BUILD_WITH_INSTALL_RPATH" "True"]
  else []) ++
  (if s.baremetal && !compilingForHost s then
    [CMakeConfigureEvent.addCMakeOption "CMAKE_EXE_LINKER_FLAGS" "-Wl,-T,qemu-malta.ld"]
  else [])

/-- Embedding of `CrossCompileCMakeProject.configure` (lines 293-359):
the workaround events, the `_prepareToolchainFile` call writing the
substituted template to the toolchain file, the extra CMake options, and
finally `super().configure()`.  A failed assertion inside
`_prepareToolchainFile` aborts the method before anything is written. -/
def crossCMakeConfigure (s : CrossMixinState) :
    Except String (List CMakeConfigureEvent) :=
  match prepareToolchainFile s.cmakeTemplate (toolchainKwargs s) with
  | Except.error e => Except.error e
  | Except.ok contents =>
    Except.ok (crossCMakeWorkaroundEvents s ++
      [CMakeConfigureEvent.writeFile (toolchainFilePath s) contents] ++
      crossCMakePostEvents s ++
      [CMakeConfigureEvent.superConfigure])

/-! ## Concrete example inputs (used by witnesses) -/

/-- A concrete smbd environment: use-smbd enabled, generic Linux host,
no smbd binary anywhere. -/
def smbdExampleEnv : QemuSmbdEnv :=
  { use_smbd := true
    target_is_freebsd := false
    target_is_macos := false
    homebrew_samba := none
    other_tools_dir := "/tools"
    target := "qemu"
    pathExists := fun _ => false }

/-- A concrete environment for `BuildFettConfig.install`: variable
unset, METALOG present with one pre-existing entry. -/
def fettExampleEnv : FettEnv :=
  { test_skip_metalog := none
    metalog_exists := true
    metalog := [("etc/passwd", MtreeEntry.file "/x/passwd" none)]
    sourceDir := "/src/fett"
    destdir := "/rootfs"
    nginxRel := "fett/nginx"
    sshRel := "fett/ssh" }

/-- A concrete environment where `_TEST_SKIP_METALOG` is set to a
non-empty value. -/
def fettSkipEnv : FettEnv :=
  { test_skip_metalog := some "1"
    metalog_exists := true
    metalog := []
    sourceDir := "/src/fett"
    destdir := "/rootfs"
    nginxRel := "fett/nginx"
    sshRel := "fett/ssh" }

/-- A concrete cross-compile mixin state for a CHERI Autotools build. -/
def autotoolsExampleState : CrossMixinState :=
  { crossCompileTarget := CrossCompileTarget.cheri
    baremetal := false
    COMMON_FLAGS := ["-pipe"]
    CFLAGS := ["-g"]
    CXXFLAGS := []
    ASMFLAGS := []
    LDFLAGS := []
    optimizationFlags := ["-O2"]
    warningFlags := ["-Wall"]
    targetTriple := "cheri-unknown-freebsd"
    sdkSysroot := "/sdk/sysroot"
    sdkBinDir := "/sdk/bin"
    compiler_dir := "/sdk/bin"
    linker := "lld"
    installPrefixStr := "/usr/local"
    newCapRelocs := false
    withLibstatcounters := false
    use_sdk_clang_for_native_xbuild := false
    is_mac := false
    clangPath := "/usr/bin/clang"
    clangPlusPlusPath := "/usr/bin/clang++"
    forceDefaultCC := false
    ld_lld_exists := true
    configureEnvironment := []
    configureArgs := []
    buildDir := "/build/x"
    cmakeTemplate := ""
    cmake_version_lt_3_9 := false
    cheri_custom_lib_dir_exists := true
    generator_is_ninja := false }

/-- A toolchain-file template for a host (native) build: each
placeholder that receives a non-None value occurs exactly once. -/
def cmakeExampleTemplate : String :=
  "@TOOLCHAIN_SDK_BINDIR@\n@TOOLCHAIN_COMPILER_BINDIR@\n" ++
  "@TOOLCHAIN_TARGET_TRIPLE@\n@TOOLCHAIN_COMMON_FLAGS@\n" ++
  "@TOOLCHAIN_C_FLAGS@\n@TOOLCHAIN_LINKER_FLAGS@\n" ++
  "@TOOLCHAIN_CXX_FLAGS@\n@TOOLCHAIN_ASM_FLAGS@\n" ++
  "@TOOLCHAIN_C_COMPILER@\n@TOOLCHAIN_CXX_COMPILER@\n"

/-- A concrete cross-compile mixin state for a native CMake build. -/
def cmakeExampleState : CrossMixinState :=
  { crossCompileTarget := CrossCompileTarget.native
    baremetal := false
    COMMON_FLAGS := ["-pipe"]
    CFLAGS := ["-g"]
    CXXFLAGS := []
    ASMFLAGS := []
    LDFLAGS := []
    optimizationFlags := ["-O2"]
    warningFlags := ["-Wall"]
    targetTriple := "x86_64-unknown-freebsd"
    sdkSysroot := "/sdk/sysroot"
    sdkBinDir := "/sdk/bin"
    compiler_dir := "/sdk/bin"
    linker := "lld"
    installPrefixStr := "/usr/local"
    newCapRelocs := false
    withLibstatcounters := false
    use_sdk_clang_for_native_xbuild := false
    is_mac := false
    clangPath := "/usr/bin/clang"
    clangPlusPlusPath := "/usr/bin/clang++"
    forceDefaultCC := false
    ld_lld_exists := true
    configureEnvironment := []
    configureArgs := []
    buildDir := "/build/x"
    cmakeTemplate := cmakeExampleTemplate
    cmake_version_lt_3_9 := false
    cheri_custom_lib_dir_exists := true
    generator_is_ninja := true }

/-- The event trace produced by `crossCMakeConfigure` on the example
state (computed from the embedding itself, so the witness hypothesis is
discharged by evaluation). -/
def cmakeExampleTrace : List CMakeConfigureEvent :=
  match crossCMakeConfigure cmakeExampleState with
  | Except.ok tr => tr
  | Except.error _ => []

/-! ## Helper lemmas -/

theorem assocLookup_assocSet_self {β : Type} (m : List (String × β)) (k : String) (v : β) :
    assocLookup (assocSet m k v) k = some v := by
  induction m with
  | nil => simp [assocSet, assocLookup]
  | cons kv rest ih =>
    obtain ⟨k0, v0⟩ := kv
    by_cases h : k0 = k
    · simp [assocSet, assocLookup, h]
    · simp [assocSet, assocLookup, h, ih]

theorem assocLookup_assocSet_other {β : Type} (m : List (String × β)) (k k' : String)
    (v : β) (h : k ≠ k') : assocLookup (assocSet m k v) k' = assocLookup m k' := by
  induction m with
  | nil => simp [assocSet, assocLookup, h]
  | cons kv rest ih =>
    obtain ⟨k0, v0⟩ := kv
    by_cases h0 : k0 = k
    · subst h0
      simp [assocSet, assocLookup, h]
    · simp [assocSet, assocLookup, h0, ih]

theorem assocLookup_isSome_assocSet {β : Type} (m : List (String × β)) (k k' : String)
    (v : β) (h : (assocLookup m k').isSome = true) :
    (assocLookup (assocSet m k v) k').isSome = true := by
  by_cases hk : k = k'
  · subst hk
    simp [assocLookup_assocSet_self]
  · simpa [assocLookup_assocSet_other m k k' v hk] using h

theorem mtree_foldl_preserves (adds : List (String × MtreeEntry)) :
    ∀ (m : List (String × MtreeEntry)) (p : String),
      (assocLookup m p).isSome = true →
      (assocLookup (adds.foldl (fun m pe => mtreeAdd m pe.1 pe.2) m) p).isSome = true := by
  induction adds with
  | nil => intro m p h; simpa using h
  | cons a rest ih =>
    intro m p h
    exact ih (mtreeAdd m a.1 a.2) p (assocLookup_isSome_assocSet m a.1 p a.2 h)

theorem mtree_foldl_mem_isSome (adds : List (String × MtreeEntry)) :
    ∀ (m : List (String × MtreeEntry)) (p : String),
      p ∈ adds.map Prod.fst →
      (assocLookup (adds.foldl (fun m pe => mtreeAdd m pe.1 pe.2) m) p).isSome = true := by
  induction adds with
  | nil => intro m p h; simp at h
  | cons a rest ih =>
    intro m p h
    rw [List.map_cons] at h
    rcases List.mem_cons.mp h with h1 | h2
    · subst h1
      exact mtree_foldl_preserves rest (mtreeAdd m a.1 a.2) a.1
        (by simp [mtreeAdd, assocLookup_assocSet_self])
    · exact ih (mtreeAdd m a.1 a.2) p h2

theorem assocLookup_filter_nonempty (m : List (String × String)) (k v : String)
    (h : assocLookup m k = some v) (hv : v ≠ "") :
    assocLookup (m.filter (fun kv => kv.2 ≠ "")) k = some v := by
  induction m with
  | nil => simp [assocLookup] at h
  | cons kv0 rest ih =>
    obtain ⟨k0, v0⟩ := kv0
    rw [List.filter_cons]
    by_cases hk : k0 = k
    · subst hk
      simp only [assocLookup, if_pos rfl] at h
      injection h with h
      subst h
      rw [if_pos (by simpa using hv)]
      simp [assocLookup]
    · simp only [assocLookup, if_neg hk] at h
      by_cases hv0 : v0 = ""
      · rw [if_neg (by simpa using hv0)]
        exact ih h
      · rw [if_pos (by simpa using hv0)]
        simp only [assocLookup, if_neg hk]
        exact ih h

theorem prepareToolchainFile_no_at (tmpl : String)
    (kwargs : List (String × Option TValue)) (c : String)
    (h : prepareToolchainFile tmpl kwargs = Except.ok c) :
    strContains c "@" = false := by
  unfold prepareToolchainFile at h
  cases hf : kwargs.foldl toolchainSubstStep (Except.ok tmpl) with
  | error e => rw [hf] at h; cases h
  | ok t =>
    rw [hf] at h
    by_cases hat : strContains t "@" = true
    · simp [hat] at h
    · simp [hat] at h
      subst h
      simpa using hat

/-! ## Claim theorems -/

/-- C1 (counterexample): the claim that no lifecycle hook modifies a
resolved option value is false: on a state whose default `qemu_targets`
lacks morello while the source tree has morello support,
`BuildQEMU.setup` appends ",morello-softmmu" to the resolved value. -/
theorem c1_counterexample : ¬ c1Claim := by
  intro h
  have h1 := h.1 ⟨"x86_64-softmmu", true, true⟩
  exact absurd h1 (by decide)

/-- C1 (amended): resolved option values are preserved by the hooks
except for the two documented mutations: `BuildQEMU.setup` leaves
`qemu_targets` unchanged whenever it already contains "morello-softmmu",
or the morello config file is absent, or the option no longer holds its
default value; and `BuildQEMUBase.__init__` leaves `use_lto` unchanged
whenever `use_asan` is disabled. -/
theorem c1_amended_hooks_preserve_options :
    (∀ s : QemuTargetsState,
      strContains s.qemu_targets "morello-softmmu" = true ∨
        s.morello_mak_exists = false ∨ s.targets_is_default_value = false →
      buildQEMUSetupQemuTargets s = s.qemu_targets) ∧
    (∀ l : Bool, buildQEMUBaseInitUseLto false l = l) := by
  constructor
  · intro s h
    unfold buildQEMUSetupQemuTargets
    rcases h with h | h | h
    · simp [h]
    · simp [h]
    · simp [h]
  · intro l
    rfl

/-- C1 (witness for the amended theorem). -/
theorem c1_amended_witness :
    buildQEMUSetupQemuTargets ⟨"a,morello-softmmu", true, true⟩ = "a,morello-softmmu" :=
  c1_amended_hooks_preserve_options.1 ⟨"a,morello-softmmu", true, true⟩ (Or.inl (by decide))

/-- C2: every `setup_config_options` / `setupConfigOptions` override in
the excerpt invokes super, so the options registered by the super chain
survive (as a sublist) and the options declared at each level of the
composition are all present afterwards. -/
theorem c2_cooperative_option_registration :
    ∀ (base : List String) (ccTargetIsNone : Bool),
      (List.Sublist base (buildQEMUBaseSetupConfigOptions base) ∧
        qemuBaseDeclaredOptions ⊆ buildQEMUBaseSetupConfigOptions base) ∧
      (List.Sublist base (buildQEMUSetupConfigOptions base) ∧
        qemuBaseDeclaredOptions ⊆ buildQEMUSetupConfigOptions base ∧
        buildQEMUDeclaredOptions ⊆ buildQEMUSetupConfigOptions base) ∧
      (List.Sublist base (crossCompileMixinSetupConfigOptions base ccTargetIsNone) ∧
        crossMixinDeclaredOptions ⊆ crossCompileMixinSetupConfigOptions base ccTargetIsNone) ∧
      (List.Sublist base (crossCompileCMakeSetupConfigOptions base ccTargetIsNone) ∧
        crossMixinDeclaredOptions ⊆ crossCompileCMakeSetupConfigOptions base ccTargetIsNone) := by
  intro base ccTargetIsNone
  refine ⟨⟨?_, ?_⟩, ⟨?_, ?_, ?_⟩, ⟨?_, ?_⟩, ⟨?_, ?_⟩⟩
  · exact List.sublist_append_left base qemuBaseDeclaredOptions
  · intro x hx
    simp [buildQEMUBaseSetupConfigOptions]
    exact Or.inr hx
  · exact (List.sublist_append_left base qemuBaseDeclaredOptions).trans
      (List.sublist_append_left _ buildQEMUDeclaredOptions)
  · intro x hx
    simp [buildQEMUSetupConfigOptions, buildQEMUBaseSetupConfigOptions]
    exact Or.inr (Or.inl hx)
  · intro x hx
    simp [buildQEMUSetupConfigOptions, buildQEMUBaseSetupConfigOptions]
    exact Or.inr (Or.inr hx)
  · exact (List.sublist_append_left base crossMixinDeclaredOptions).trans
      (List.sublist_append_left _ _)
  · intro x hx
    simp [crossCompileMixinSetupConfigOptions]
    exact Or.inr (Or.inl hx)
  · exact (List.sublist_append_left base crossMixinDeclaredOptions).trans
      (List.sublist_append_left _ _)
  · intro x hx
    simp [crossCompileCMakeSetupConfigOptions, crossCompileMixinSetupConfigOptions]
    exact Or.inr (Or.inl hx)

/-- C3 (counterexample): the claim that the update step never silently
discards local modifications to tracked subdirectories is false: on a
working copy with local modifications under "po" (and no pixman
checkout), `BuildQEMUBase.update` resets "po" to HEAD, losing the
modifications without any warning. -/
theorem c3_counterexample : ¬ c3Claim := by
  intro h
  have h1 := h id (fun _ => rfl) false ⟨true, false, ["po"]⟩ "po" (by decide)
  exact absurd h1.1 (by decide)

/-- C3 (amended): `BuildQEMUBase.update` discards local modifications
only in the `po/` subdirectory (deliberately, via
`git checkout HEAD po/`, to undo build-generated changes without a full
reset); modifications to every other tracked subdirectory survive, and
the stale pixman submodule is warned about.  Quantified over any
super-update behaviour that preserves local modifications. -/
theorem c3_amended_update_preserves_other_subdirs :
    ∀ superUpdate : QemuWorkingCopy → QemuWorkingCopy,
      (∀ t, (superUpdate t).modifiedSubdirs = t.modifiedSubdirs) →
      ∀ (skip : Bool) (t : QemuWorkingCopy),
        (∀ d, d ∈ t.modifiedSubdirs → d ≠ "po" →
          d ∈ (buildQEMUBaseUpdate superUpdate skip t).1.modifiedSubdirs) ∧
        (t.pixman_pixman_exists = true →
          pixmanWarning ∈ (buildQEMUBaseUpdate superUpdate skip t).2) := by
  intro superUpdate hframe skip t
  constructor
  · intro d hd hne
    unfold buildQEMUBaseUpdate
    rw [hframe]
    unfold qemuUpdateLocal
    by_cases hpo : t.po_is_dir = true ∧ skip = false
    · simp only [hpo, if_pos]
      exact List.mem_filter.mpr ⟨hd, by simpa using hne⟩
    · simp only [hpo, if_neg, if_false]
      exact hd
  · intro hp
    unfold buildQEMUBaseUpdate qemuUpdateLocal
    simp [hp]

/-- C3 (witness for the amended theorem). -/
theorem c3_amended_witness :
    "docs" ∈ (buildQEMUBaseUpdate id false ⟨true, true, ["po", "docs"]⟩).1.modifiedSubdirs :=
  (c3_amended_update_preserves_other_subdirs id (fun _ => rfl) false
    ⟨true, true, ["po", "docs"]⟩).1 "docs" (by decide) (by decide)

/-- C4: the computed install-directory default `_installDir` returns the
SDK dir for NATIVE regardless of policy; under CHERIBSD_ROOTFS it joins
the rootfs dir, "opt", the architecture name ("cheri"+bits for CHERI,
"mips" for MIPS) and the lowercase project name; under SDK it returns
the SDK sysroot dir; and for the remaining policy value it reports the
fatal "Unknown install dir" error. -/
theorem c4_installDir_cases :
    ∀ (config : InstallDirConfig) (idir : CrossInstallDir) (name : String),
      installDirFn config ⟨CrossCompileTarget.native, idir, name⟩ =
        InstallDirResult.path config.sdkDir ∧
      installDirFn config ⟨CrossCompileTarget.cheri, CrossInstallDir.cheribsdRootfs, name⟩ =
        InstallDirResult.path
          (config.rootfsDir ++ "/opt/" ++ ("cheri" ++ config.cheriBitsStr) ++ "/" ++
            lowerStr name) ∧
      installDirFn config ⟨CrossCompileTarget.mips, CrossInstallDir.cheribsdRootfs, name⟩ =
        InstallDirResult.path
          (config.rootfsDir ++ "/opt/" ++ "mips" ++ "/" ++ lowerStr name) ∧
      installDirFn config ⟨CrossCompileTarget.cheri, CrossInstallDir.sdk, name⟩ =
        InstallDirResult.path config.sdkSysrootDir ∧
      installDirFn config ⟨CrossCompileTarget.mips, CrossInstallDir.sdk, name⟩ =
        InstallDirResult.path config.sdkSysrootDir ∧
      installDirFn config ⟨CrossCompileTarget.cheri, CrossInstallDir.noneDir, name⟩ =
        InstallDirResult.fatal ("Unknown install dir for " ++ name) ∧
      installDirFn config ⟨CrossCompileTarget.mips, CrossInstallDir.noneDir, name⟩ =
        InstallDirResult.fatal ("Unknown install dir for " ++ name) := by
  intro config idir name
  refine ⟨?_, ?_, ?_, ?_, ?_, ?_, ?_⟩ <;> simp [installDirFn]

/-- C6: `CrossCompileMixin.dependencies` yields exactly
["freestanding-sdk"] for baremetal classes and exactly ["cheribsd-sdk"]
otherwise. -/
theorem c6_dependencies_branches :
    crossCompileMixinDependencies true = ["freestanding-sdk"] ∧
    crossCompileMixinDependencies false = ["cheribsd-sdk"] :=
  ⟨rfl, rfl⟩

/-- C7: whenever the use-smbd option is enabled and no smbd executable
exists at the resolved smbd path, `BuildQEMUBase.setup` reports the
fatal missing-smbd error, whose fixit hint names both remediations
(install samba via package manager or cheribuild, or pass
--<target>/no-use-smbd). -/
theorem c7_missing_smbd_is_fatal_with_hint :
    ∀ e : QemuSmbdEnv, e.use_smbd = true →
      e.pathExists (qemuSmbdPath e).1 = false →
      QemuSetupEvent.fatal smbdFatalMsg (smbdFatalHint e.target) ∈ qemuSetupSmbd e ∧
      smbdFatalHint e.target =
        "Either install samba using the system package manager or with cheribuild. " ++
        "If you really don\x27t need QEMU host shares you can disable the samba dependency " ++
        "by setting --" ++ e.target ++ "/no-use-smbd" := by
  intro e hu hp
  refine ⟨?_, rfl⟩
  unfold qemuSetupSmbd
  rw [hu]
  simp only [if_pos]
  rw [hp]
  by_cases hm : e.target_is_macos = true <;> simp [hm]

/-- C7 (witness). -/
theorem c7_witness :
    QemuSetupEvent.fatal smbdFatalMsg (smbdFatalHint smbdExampleEnv.target) ∈
      qemuSetupSmbd smbdExampleEnv ∧
    smbdFatalHint smbdExampleEnv.target =
      "Either install samba using the system package manager or with cheribuild. " ++
      "If you really don\x27t need QEMU host shares you can disable the samba dependency " ++
      "by setting --" ++ smbdExampleEnv.target ++ "/no-use-smbd" :=
  c7_missing_smbd_is_fatal_with_hint smbdExampleEnv rfl rfl

/-- C10 (counterexample): the claim is false for an environment where
`_TEST_SKIP_METALOG` is set to the empty string: `os.getenv` then
returns a falsy value, so `install` does not return immediately — it
runs the full load/add/write sequence even though the variable is set. -/
theorem c10_counterexample : ¬ c10Claim := by
  intro h
  have h1 := (h ⟨some "", true, [], "src", "dst", "n", "s"⟩).1 (by simp)
  exact absurd (congrArg Prod.fst h1) (by decide)

/-- C10 (amended): the guards of `BuildFettConfig.install` follow Python
truthiness: it returns immediately (touching nothing) when
`_TEST_SKIP_METALOG` is set to a non-empty value, reports the fatal
missing-METALOG error with the manifest unchanged when the variable is
unset-or-empty and METALOG does not exist, and runs the load/add/write
sequence exactly when METALOG exists and the variable is unset or set
to the empty string. -/
theorem c10_amended_install_guards :
    ∀ e : FettEnv,
      (truthy e.test_skip_metalog = true →
        fettInstall e = (FettOutcome.skipped, e.metalog)) ∧
      (truthy e.test_skip_metalog = false → e.metalog_exists = false →
        fettInstall e =
          (FettOutcome.fatalMissingMetalog
            ("METALOG " ++ e.destdir ++ "/METALOG" ++ "does not exist"), e.metalog)) ∧
      ((fettInstall e).1 = FettOutcome.installed ↔
        e.metalog_exists = true ∧ truthy e.test_skip_metalog = false) ∧
      ((fettInstall e).1 = FettOutcome.installed →
        (fettInstall e).2 = fettInstalledManifest e) := by
  intro e
  by_cases ht : truthy e.test_skip_metalog = true
  · refine ⟨fun _ => by simp [fettInstall, ht], fun hf => absurd ht (by simp [hf]), ?_, ?_⟩
    · simp [fettInstall, ht]
    · simp [fettInstall, ht]
  · have ht' : truthy e.test_skip_metalog = false := by simpa using ht
    by_cases hm : e.metalog_exists = true
    · refine ⟨fun h => absurd h (by simp [ht']), fun _ hf => absurd hm (by simp [hf]), ?_, ?_⟩
      · simp [fettInstall, ht', hm]
      · simp [fettInstall, ht', hm]
    · have hm' : e.metalog_exists = false := by simpa using hm
      refine ⟨fun h => absurd h (by simp [ht']), fun _ _ => by simp [fettInstall, ht', hm'], ?_, ?_⟩
      · simp [fettInstall, ht', hm']
      · simp [fettInstall, ht', hm']

/-- C10 (witness for the amended theorem). -/
theorem c10_amended_witness :
    fettInstall fettSkipEnv = (FettOutcome.skipped, fettSkipEnv.metalog) :=
  (c10_amended_install_guards fettSkipEnv).1 rfl

/-- C5: when it runs at all (METALOG present, skip variable falsy),
`BuildFettConfig.install` loads the manifest, adds its file, directory
and symlink entries, and writes the result back; every destination path
recorded in the manifest before install is still recorded afterwards
(entries are only inserted or replaced, never removed), and the written
manifest contains the added file, directory and symlink entries. -/
theorem c5_fett_install_additive :
    ∀ e : FettEnv, truthy e.test_skip_metalog = false → e.metalog_exists = true →
      fettInstall e = (FettOutcome.installed, fettInstalledManifest e) ∧
      (∀ p, (assocLookup e.metalog p).isSome = true →
        (assocLookup (fettInstalledManifest e) p).isSome = true) ∧
      assocLookup (fettInstalledManifest e) "etc/rc.d/fett_sshd" =
        some (MtreeEntry.file (e.sourceDir ++ "/build/ssh/FreeBSD/fett_sshd")
          (some "0555")) ∧
      (assocLookup (fettInstalledManifest e) (e.nginxRel ++ "/logs")).isSome = true ∧
      (assocLookup (fettInstalledManifest e)
        (e.sshRel ++ "/etc/" ++ "ssh_host_rsa_key")).isSome = true := by
  intro e ht hm
  refine ⟨by simp [fettInstall, ht, hm], ?_, ?_, ?_, ?_⟩
  · intro p hp
    exact mtree_foldl_preserves (fettInstallAdds e) e.metalog p hp
  · have hsplit : fettInstallAdds e =
        (fettInstallAdds e).dropLast ++
          [("etc/rc.d/fett_sshd",
            MtreeEntry.file (e.sourceDir ++ "/build/ssh/FreeBSD/fett_sshd")
              (some "0555"))] := by
      simp [fettInstallAdds, fettHtmlFiles, fettKeyfiles]
    rw [fettInstalledManifest, hsplit, List.foldl_append]
    simp only [List.foldl_cons, List.foldl_nil]
    exact assocLookup_assocSet_self _ _ _
  · exact mtree_foldl_mem_isSome (fettInstallAdds e) e.metalog (e.nginxRel ++ "/logs")
      (by simp [fettInstallAdds, fettHtmlFiles, fettKeyfiles])
  · exact mtree_foldl_mem_isSome (fettInstallAdds e) e.metalog
      (e.sshRel ++ "/etc/" ++ "ssh_host_rsa_key")
      (by simp [fettInstallAdds, fettHtmlFiles, fettKeyfiles])

/-- C5 (witness). -/
theorem c5_witness :
    fettInstall fettExampleEnv = (FettOutcome.installed, fettInstalledManifest fettExampleEnv) ∧
    (∀ p, (assocLookup fettExampleEnv.metalog p).isSome = true →
      (assocLookup (fettInstalledManifest fettExampleEnv) p).isSome = true) ∧
    assocLookup (fettInstalledManifest fettExampleEnv) "etc/rc.d/fett_sshd" =
      some (MtreeEntry.file (fettExampleEnv.sourceDir ++ "/build/ssh/FreeBSD/fett_sshd")
        (some "0555")) ∧
    (assocLookup (fettInstalledManifest fettExampleEnv)
      (fettExampleEnv.nginxRel ++ "/logs")).isSome = true ∧
    (assocLookup (fettInstalledManifest fettExampleEnv)
      (fettExampleEnv.sshRel ++ "/etc/" ++ "ssh_host_rsa_key")).isSome = true :=
  c5_fett_install_additive fettExampleEnv rfl rfl

/-- C8: whenever `CrossCompileCMakeProject.configure` completes, it has
first written the fully substituted toolchain file — the configured
template passed every placeholder assertion and contains no "@" at all,
so every supplied non-None placeholder was replaced — into the build
directory, with the CMake options registered at construction pointing
`CMAKE_TOOLCHAIN_FILE` at exactly that file, and `super().configure()`
is invoked only afterwards (it is the final event of the trace). -/
theorem c8_cmake_writes_toolchain_file_then_configures :
    ∀ (s : CrossMixinState) (tr : List CMakeConfigureEvent),
      crossCMakeConfigure s = Except.ok tr →
      ∃ contents : String,
        prepareToolchainFile s.cmakeTemplate (toolchainKwargs s) = Except.ok contents ∧
        strContains contents "@" = false ∧
        tr = crossCMakeWorkaroundEvents s ++
          [CMakeConfigureEvent.writeFile (toolchainFilePath s) contents] ++
          crossCMakePostEvents s ++ [CMakeConfigureEvent.superConfigure] ∧
        ("CMAKE_TOOLCHAIN_FILE", toolchainFilePath s) ∈ crossCMakeInitCMakeOptions s := by
  intro s tr h
  unfold crossCMakeConfigure at h
  cases hp : prepareToolchainFile s.cmakeTemplate (toolchainKwargs s) with
  | error e => rw [hp] at h; cases h
  | ok contents =>
    rw [hp] at h
    simp only [Except.ok.injEq] at h
    refine ⟨contents, ?_, prepareToolchainFile_no_at s.cmakeTemplate (toolchainKwargs s)
      contents hp, h.symm, by simp [crossCMakeInitCMakeOptions]⟩
    exact rfl

/-- C8 (witness): on the concrete native example state the configure
run succeeds and the conclusion holds. -/
theorem c8_witness :
    ∃ contents : String,
      prepareToolchainFile cmakeExampleState.cmakeTemplate
        (toolchainKwargs cmakeExampleState) = Except.ok contents ∧
      strContains contents "@" = false ∧
      cmakeExampleTrace = crossCMakeWorkaroundEvents cmakeExampleState ++
        [CMakeConfigureEvent.writeFile (toolchainFilePath cmakeExampleState) contents] ++
        crossCMakePostEvents cmakeExampleState ++ [CMakeConfigureEvent.superConfigure] ∧
      ("CMAKE_TOOLCHAIN_FILE", toolchainFilePath cmakeExampleState) ∈
        crossCMakeInitCMakeOptions cmakeExampleState :=
  c8_cmake_writes_toolchain_file_then_configures cmakeExampleState cmakeExampleTrace
    (by set_option maxRecDepth 8192 in exact rfl)

/-! ## Lemmas about the configure-state operations (used by C9) -/

theorem lookup_setProgWithArgs_self (cmdline : Bool) (ea : ConfigureState)
    (prog path : String) (args : List String) :
    assocLookup (setProgWithArgs cmdline ea prog path args).configureEnvironment prog =
      some (progWithArgsStr path args) := by
  simp [setProgWithArgs, assocLookup_assocSet_self]

theorem lookup_setProgWithArgs_other (cmdline : Bool) (ea : ConfigureState)
    (prog path : String) (args : List String) (k : String) (h : prog ≠ k) :
    assocLookup (setProgWithArgs cmdline ea prog path args).configureEnvironment k =
      assocLookup ea.configureEnvironment k := by
  simp [setProgWithArgs, assocLookup_assocSet_other _ _ _ _ h]

theorem lookup_addConfigureEnvArg_self (cmdline : Bool) (ea : ConfigureState)
    (arg value : String) (h : value ≠ "") :
    assocLookup (addConfigureEnvArg cmdline ea arg value).configureEnvironment arg =
      some value := by
  simp [addConfigureEnvArg, h, assocLookup_assocSet_self]

theorem lookup_addConfigureEnvArg_other (cmdline : Bool) (ea : ConfigureState)
    (arg value k : String) (h : arg ≠ k) :
    assocLookup (addConfigureEnvArg cmdline ea arg value).configureEnvironment k =
      assocLookup ea.configureEnvironment k := by
  unfold addConfigureEnvArg
  by_cases hv : value = ""
  · simp [hv]
  · simp [hv, assocLookup_assocSet_other _ _ _ _ h]

theorem mem_args_setProgWithArgs (cmdline : Bool) (ea : ConfigureState)
    (prog path : String) (args : List String) (x : String)
    (h : x ∈ ea.configureArgs) :
    x ∈ (setProgWithArgs cmdline ea prog path args).configureArgs := by
  simp only [setProgWithArgs, List.mem_append]
  exact Or.inl h

theorem entry_mem_args_setProgWithArgs (ea : ConfigureState)
    (prog path : String) (args : List String) :
    configureArgEntry prog (progWithArgsStr path args) ∈
      (setProgWithArgs true ea prog path args).configureArgs := by
  simp [setProgWithArgs]

theorem mem_args_addConfigureEnvArg (cmdline : Bool) (ea : ConfigureState)
    (arg value x : String) (h : x ∈ ea.configureArgs) :
    x ∈ (addConfigureEnvArg cmdline ea arg value).configureArgs := by
  unfold addConfigureEnvArg
  by_cases hv : value = ""
  · simpa [hv] using h
  · simp only [hv, if_neg, List.mem_append, ite_false]
    exact Or.inl h

theorem entry_mem_args_addConfigureEnvArg (ea : ConfigureState)
    (arg value : String) (h : value ≠ "") :
    configureArgEntry arg value ∈ (addConfigureEnvArg true ea arg value).configureArgs := by
  simp [addConfigureEnvArg, h]

theorem lookup_autotoolsCPPAndLD (cmdline : Bool) (st : CrossMixinState)
    (ea : ConfigureState) (k : String) (h1 : "CPP" ≠ k) (h2 : "LD" ≠ k) :
    assocLookup (autotoolsCPPAndLD cmdline st ea).configureEnvironment k =
      assocLookup ea.configureEnvironment k := by
  unfold autotoolsCPPAndLD
  by_cases hh : compilingForHost st = true
  · simp [hh]
  · have hh2 : compilingForHost st = false := by simpa using hh
    simp only [hh2, Bool.not_false, if_true, ite_true]
    by_cases hl : (strContains st.linker "lld" && st.ld_lld_exists) = true
    · rw [if_pos hl, lookup_addConfigureEnvArg_other _ _ _ _ _ h2,
        lookup_setProgWithArgs_other _ _ _ _ _ _ h1]
    · rw [if_neg hl, lookup_setProgWithArgs_other _ _ _ _ _ _ h1]

theorem mem_args_autotoolsCPPAndLD (cmdline : Bool) (st : CrossMixinState)
    (ea : ConfigureState) (x : String) (h : x ∈ ea.configureArgs) :
    x ∈ (autotoolsCPPAndLD cmdline st ea).configureArgs := by
  unfold autotoolsCPPAndLD
  by_cases hh : compilingForHost st = true
  · simpa [hh] using h
  · have hh2 : compilingForHost st = false := by simpa using hh
    simp only [hh2, Bool.not_false, if_true, ite_true]
    by_cases hl : (strContains st.linker "lld" && st.ld_lld_exists) = true
    · rw [if_pos hl]
      exact mem_args_addConfigureEnvArg _ _ _ _ _
        (mem_args_setProgWithArgs _ _ _ _ _ _ h)
    · rw [if_neg hl]
      exact mem_args_setProgWithArgs _ _ _ _ _ _ h

/-- C9: for every non-baremetal Autotools cross-compile target (with the
class-default command-line/libdir support), the default configure
assembles `CC` and `CXX` — compiler path plus the composed default
compiler flags and the per-language flags — and `LDFLAGS` — the LDFLAGS
list plus the default linker flags, space-joined — into both the
configure environment and the configure arguments, removes every
empty-valued environment entry, and then hands the result to
`super().configure()` (the `true` component).  The environment entries
are stated under non-emptiness of the respective value, since the final
sweep removes empty values. -/
theorem c9_autotools_configure_assembles_cc_cxx_ldflags :
    ∀ st : CrossMixinState, st.baremetal = false →
      autotoolsFlagKeysAbsent st.configureEnvironment = true →
      ∃ ea : ConfigureState,
        crossAutotoolsConfigure true true st = Except.ok (ea, true) ∧
        (autotoolsCCValue st ≠ "" →
          assocLookup ea.configureEnvironment "CC" = some (autotoolsCCValue st)) ∧
        (autotoolsCXXValue st ≠ "" →
          assocLookup ea.configureEnvironment "CXX" = some (autotoolsCXXValue st)) ∧
        (autotoolsLDFLAGSValue st ≠ "" →
          assocLookup ea.configureEnvironment "LDFLAGS" = some (autotoolsLDFLAGSValue st)) ∧
        configureArgEntry "CC" (autotoolsCCValue st) ∈ ea.configureArgs ∧
        configureArgEntry "CXX" (autotoolsCXXValue st) ∈ ea.configureArgs ∧
        (autotoolsLDFLAGSValue st ≠ "" →
          configureArgEntry "LDFLAGS" (autotoolsLDFLAGSValue st) ∈ ea.configureArgs) ∧
        (∀ kv, kv ∈ ea.configureEnvironment → kv.2 ≠ "") := by
  intro st hb hkeys
  simp only [crossAutotoolsConfigure, hb, hkeys, Bool.not_false, Bool.not_true,
    if_true, if_false, ite_true, ite_false]
  refine ⟨_, rfl, ?_, ?_, ?_, ?_, ?_, ?_, ?_⟩
  · intro hcc
    dsimp only
    apply assocLookup_filter_nonempty _ _ _ ?_ hcc
    rw [lookup_autotoolsCPPAndLD _ _ _ _ (by decide) (by decide),
      lookup_addConfigureEnvArg_other _ _ _ _ _ (by decide),
      lookup_setProgWithArgs_other _ _ _ _ _ _ (by decide)]
    exact lookup_setProgWithArgs_self _ _ _ _ _
  · intro hcxx
    dsimp only
    apply assocLookup_filter_nonempty _ _ _ ?_ hcxx
    rw [lookup_autotoolsCPPAndLD _ _ _ _ (by decide) (by decide),
      lookup_addConfigureEnvArg_other _ _ _ _ _ (by decide)]
    exact lookup_setProgWithArgs_self _ _ _ _ _
  · intro hld
    dsimp only
    apply assocLookup_filter_nonempty _ _ _ ?_ hld
    rw [lookup_autotoolsCPPAndLD _ _ _ _ (by decide) (by decide)]
    exact lookup_addConfigureEnvArg_self _ _ _ _ hld
  · dsimp only
    exact mem_args_autotoolsCPPAndLD _ _ _ _
      (mem_args_addConfigureEnvArg _ _ _ _ _
        (mem_args_setProgWithArgs _ _ _ _ _ _
          (entry_mem_args_setProgWithArgs _ _ _ _)))
  · dsimp only
    exact mem_args_autotoolsCPPAndLD _ _ _ _
      (mem_args_addConfigureEnvArg _ _ _ _ _
        (entry_mem_args_setProgWithArgs _ _ _ _))
  · intro hld
    dsimp only
    exact mem_args_autotoolsCPPAndLD _ _ _ _
      (entry_mem_args_addConfigureEnvArg _ _ _ hld)
  · intro kv hkv
    dsimp only at hkv
    simpa using (List.mem_filter.mp hkv).2

/-- C9 (witness): the conclusion at the concrete CHERI example state. -/
theorem c9_witness :
    ∃ ea : ConfigureState,
      crossAutotoolsConfigure true true autotoolsExampleState = Except.ok (ea, true) ∧
      (autotoolsCCValue autotoolsExampleState ≠ "" →
        assocLookup ea.configureEnvironment "CC" =
          some (autotoolsCCValue autotoolsExampleState)) ∧
      (autotoolsCXXValue autotoolsExampleState ≠ "" →
        assocLookup ea.configureEnvironment "CXX" =
          some (autotoolsCXXValue autotoolsExampleState)) ∧
      (autotoolsLDFLAGSValue autotoolsExampleState ≠ "" →
        assocLookup ea.configureEnvironment "LDFLAGS" =
          some (autotoolsLDFLAGSValue autotoolsExampleState)) ∧
      configureArgEntry "CC" (autotoolsCCValue autotoolsExampleState) ∈ ea.configureArgs ∧
      configureArgEntry "CXX" (autotoolsCXXValue autotoolsExampleState) ∈ ea.configureArgs ∧
      (autotoolsLDFLAGSValue autotoolsExampleState ≠ "" →
        configureArgEntry "LDFLAGS" (autotoolsLDFLAGSValue autotoolsExampleState) ∈
          ea.configureArgs) ∧
      (∀ kv, kv ∈ ea.configureEnvironment → kv.2 ≠ "") :=
  c9_autotools_configure_assembles_cc_cxx_ldflags autotoolsExampleState rfl rfl

/-- C2 (witness): a QEMU-base option is registered after
`BuildQEMU.setup_config_options` runs on an empty super registry. -/
theorem c2_witness : "use-smbd" ∈ buildQEMUSetupConfigOptions [] :=
  (c2_cooperative_option_registration [] false).2.1.2.1
    (by decide : "use-smbd" ∈ qemuBaseDeclaredOptions)

/-- C4 (witness): the CHERIBSD_ROOTFS case at a concrete config. -/
theorem c4_witness :
    installDirFn ⟨"/sdk", "/sdk/sysroot", "128", "/rootfs"⟩
        ⟨CrossCompileTarget.cheri, CrossInstallDir.cheribsdRootfs, "QEMU"⟩ =
      InstallDirResult.path
        ("/rootfs" ++ "/opt/" ++ ("cheri" ++ "128") ++ "/" ++ lowerStr "QEMU") :=
  (c4_installDir_cases ⟨"/sdk", "/sdk/sysroot", "128", "/rootfs"⟩
    CrossInstallDir.sdk "QEMU").2.1
